import Mathlib

/-!
# Verification of the airflights data-analysis module

Shallow embedding of `src/airflights/data_analysis.py` and proofs about it.

Conventions of the embedding:

* A Python flight dictionary (produced by `get_route` and annotated by
  `add_total_travel_time`) is the structure `Flight` below: the keys
  `flight1`, `flight2` (optional), `Price` and `TotalTravelTime` become
  fields.  A segment dictionary (tag -> text) is an association list.
* `airflights.auxiliary_func` and `airflights.parser_xml` are imported by
  the module but are not part of the sources; the pieces the claims need
  (`get_flight_weights`, the medians used by the test suite) are modelled
  from the spec and carry a doc comment saying so.
* The module-level functions read the full flight list via
  `get_all_flights()`, which loads a fixed XML file.  The embedding passes
  the flight list explicitly as a parameter.
* `TicketPrice` is stored as a decimal string in the source and parsed with
  `float` at each sort call; the embedding carries the parsed decimal value
  as a rational.  `TotalTravelTime` is the annotator's comparable duration
  value, embedded as natural-number minutes (spec section 4.2 fixes only
  that it is a totally ordered duration representation).
* Python `sorted` is a stable sort; `reverse=True` is a stable sort by the
  reversed key order.  The embedding uses `List.insertionSort`, which is
  stable, with the key order (or its reverse) as the relation.
-/

/-- A segment dictionary: tag names mapped to text, in insertion order.
Mirrors the Python dict `flight_direction` built in `get_route`. -/
abbrev Segment := List (String × String)

/-- The `Price` sub-dictionary of a flight: `{'TicketPrice': ..., 'Currency': ...}`.
The ticket price is the decimal value of the stored price string. -/
structure FlightPrice where
  ticketPrice : ℚ
  currency : String
deriving DecidableEq, Repr

/-- An annotated flight dictionary, as consumed by the query layer:
keys `flight1`, optional `flight2`, `Price` and `TotalTravelTime`. -/
structure Flight where
  flight1 : Segment
  flight2 : Option Segment
  price : FlightPrice
  totalTravelTime : Nat
deriving DecidableEq, Repr

/-- Embeds `get_flights_sorted_price` (data_analysis.py, lines 60-76):
`sorted(flights, key=lambda flight: float(flight['Price']['TicketPrice']), reverse=reverse)`.
A stable sort keyed by the parsed ticket price; `reverse` flips the key order. -/
def get_flights_sorted_price (flights : List Flight) (reverse : Bool := false) : List Flight :=
  if reverse then
    List.insertionSort (fun a b => b.price.ticketPrice ≤ a.price.ticketPrice) flights
  else
    List.insertionSort (fun a b => a.price.ticketPrice ≤ b.price.ticketPrice) flights

/-- Embeds `get_flights_sorted_time` (data_analysis.py, lines 79-95):
`sorted(flights, key=lambda flight: flight['TotalTravelTime'], reverse=reverse)`. -/
def get_flights_sorted_time (flights : List Flight) (reverse : Bool := false) : List Flight :=
  if reverse then
    List.insertionSort (fun a b => b.totalTravelTime ≤ a.totalTravelTime) flights
  else
    List.insertionSort (fun a b => a.totalTravelTime ≤ b.totalTravelTime) flights

/-- The loop body of `get_flights_filtered_direction` (lines 111-121) as a
predicate.  `flight.get('flight2')` is truthy only when the key is present
and the dictionary is non-empty, hence the emptiness test. -/
def directionMatch (source destination : String) (flight : Flight) : Bool :=
  let source_in_flight := flight.flight1.lookup "Source"
  let second_flight :=
    match flight.flight2 with
    | some f2 => if f2.isEmpty then flight.flight1 else f2
    | none => flight.flight1
  source_in_flight == some source && second_flight.lookup "Destination" == some destination

/-- Embeds `get_flights_filtered_direction` (data_analysis.py, lines 98-123):
the loop appends, in order, exactly the flights whose first segment's Source
is `source` and whose effective last segment's Destination is `destination`,
i.e. a filter over the full flight list. -/
def get_flights_filtered_direction (source destination : String)
    (flights : List Flight) : List Flight :=
  flights.filter (directionMatch source destination)

/-- Membership criterion of claim C3, written from the spec's words: the
first segment's Source equals `source` and the last segment's Destination
equals `destination`, where the last segment is the second segment *if
present* (regardless of emptiness), else the first. -/
def directionMatchClaim (source destination : String) (flight : Flight) : Prop :=
  flight.flight1.lookup "Source" = some source ∧
    (match flight.flight2 with
      | some f2 => f2.lookup "Destination"
      | none => flight.flight1.lookup "Destination") = some destination

instance (source destination : String) (flight : Flight) :
    Decidable (directionMatchClaim source destination flight) := by
  unfold directionMatchClaim; exact inferInstance

/-- Modelled from the spec: `get_flight_weights` lives in
`airflights.auxiliary_func`, which is not among the sources.  Spec section
4.4: for each route of the direction-filtered set, its weight is its 0-based
index in the time-ascending sorted list plus its 0-based index in the
price-ascending sorted list, ties in the final weight sort being broken by
the stable original (filtered) ordering — hence the pairs are produced in
the original filtered order.  The filtered list is passed explicitly. -/
def get_flight_weights (filtered sort_flight_time sort_flight_price : List Flight) :
    List (Flight × Nat) :=
  filtered.map fun f => (f, sort_flight_time.indexOf f + sort_flight_price.indexOf f)

/-- Embeds `get_optimal_route` (data_analysis.py, lines 169-195): sort the
direction-filtered set by time and by price, attach rank-sum weights, sort
the (flight, weight) pairs stably by weight (`sorted(..., key=pair[1])`),
slice to `count` and project the flights. -/
def get_optimal_route (source destination : String) (flights : List Flight)
    (count : Nat := 10) : List Flight :=
  let sort_flight_time :=
    get_flights_sorted_time (get_flights_filtered_direction source destination flights)
  let sort_flight_price :=
    get_flights_sorted_price (get_flights_filtered_direction source destination flights)
  let flight_weights :=
    get_flight_weights (get_flights_filtered_direction source destination flights)
      sort_flight_time sort_flight_price
  ((List.insertionSort (fun a b : Flight × Nat => a.2 ≤ b.2) flight_weights).take count).map
    Prod.fst

/-- The Route Ranker as the spec's words state it (claim C2): the filtered
routes sorted stably by the rank-sum weight, ascending, truncated to the
first `count` elements. -/
def optimalRouteSpec (source destination : String) (flights : List Flight)
    (count : Nat := 10) : List Flight :=
  let filtered := get_flights_filtered_direction source destination flights
  let sort_flight_time := get_flights_sorted_time filtered
  let sort_flight_price := get_flights_sorted_price filtered
  (List.insertionSort
      (fun a b =>
        sort_flight_time.indexOf a + sort_flight_price.indexOf a ≤
          sort_flight_time.indexOf b + sort_flight_price.indexOf b)
      filtered).take count

/-- The route summary built for one flight by the loop of `get_all_routes`
(data_analysis.py, lines 145-159): `Transfer = none` models the absence of
the `'Transfer'` key (direct flight); the inner options model `dict.get`
results, which may be `None`. -/
structure RouteSummary where
  source : Option String
  transfer : Option (Option String)
  destination : Option String
deriving DecidableEq, Repr

/-- Loop body of `get_all_routes` (lines 145-159).  The branch test is
`flight.get('flight2') is None`, an identity test, not truthiness: an empty
second segment still takes the transfer branch. -/
def flightToRoute (flight : Flight) : RouteSummary :=
  let source := flight.flight1.lookup "Source"
  let destination := flight.flight1.lookup "Destination"
  match flight.flight2 with
  | none => ⟨source, none, destination⟩
  | some f2 => ⟨source, some destination, f2.lookup "Destination"⟩

/-- The `all_routes` list of `get_all_routes` before deduplication. -/
def all_routes_list (flights : List Flight) : List RouteSummary :=
  flights.map flightToRoute

/-- Embeds `get_all_routes` with `return_set_airports=False`
(data_analysis.py, lines 126-166): one summary per flight, then
`set(tuple(route.items()))` deduplication by full equality.  Python's set
iteration order is unspecified; `List.dedup` is a deterministic refinement
keeping one occurrence of each distinct summary. -/
def get_all_routes (flights : List Flight) : List RouteSummary :=
  (all_routes_list flights).dedup

/-- The dictionary values of one route summary, in insertion order, as used
by the `return_set_airports=True` branch (lines 161-163). -/
def routeValues (r : RouteSummary) : List (Option String) :=
  match r.transfer with
  | none => [r.source, r.destination]
  | some t => [r.source, t, r.destination]

/-- Embeds the `return_set_airports=True` branch of `get_all_routes`:
`set(chain(*(route.values() for route in all_routes)))`. -/
def get_all_routes_airports (flights : List Flight) : List (Option String) :=
  (((all_routes_list flights).map routeValues).flatten).dedup

/-- Modelled from the spec: the test helpers `get_median_time` and
`get_median_price` live in `tests/unit_tests/checking_sorting.py`, which is
not among the sources.  The spec's testable property speaks of "the median";
this is the usual `statistics.median`: the middle element of the sorted
values, or the mean of the two middle elements for even length (0 on the
empty list, on which `statistics.median` raises). -/
def median_rat (l : List ℚ) : ℚ :=
  let s := List.insertionSort (fun a b : ℚ => a ≤ b) l
  if l.length % 2 = 1 then s.getD (l.length / 2) 0
  else (s.getD (l.length / 2 - 1) 0 + s.getD (l.length / 2) 0) / 2

/-- Modelled from the spec: median of the `TotalTravelTime` values. -/
def get_median_time (flights : List Flight) : ℚ :=
  median_rat (flights.map fun f => (f.totalTravelTime : ℚ))

/-- Modelled from the spec: median of the parsed `TicketPrice` values. -/
def get_median_price (flights : List Flight) : ℚ :=
  median_rat (flights.map fun f => f.price.ticketPrice)

/-- An XML element as `get_route` sees it: tag, attributes, text node (the
lxml `.text`, absent when the element has no leading text) and child
elements in document order. -/
inductive Xml where
  | elem (tag : String) (attrs : List (String × String)) (text : Option String)
      (children : List Xml)

/-- The element's tag name. -/
def Xml.tag : Xml → String
  | .elem t _ _ _ => t

/-- The element's attribute dictionary. -/
def Xml.attrs : Xml → List (String × String)
  | .elem _ a _ _ => a

/-- The element's text node, `none` for lxml `None`. -/
def Xml.text : Xml → Option String
  | .elem _ _ s _ => s

/-- The element's direct children in document order. -/
def Xml.children : Xml → List Xml
  | .elem _ _ _ cs => cs

/-- Attribute lookup, `elem.attrib[key]` (first binding wins, keys are
unique in XML). -/
def Xml.attr (x : Xml) (k : String) : Option String :=
  x.attrs.lookup k

mutual

/-- `elem.iter('*')`: the element followed by all its descendants in
document order (preorder). -/
def Xml.descendants : Xml → List Xml
  | .elem t a s cs => .elem t a s cs :: descendantsList cs

/-- Document-order concatenation of the descendants of a forest. -/
def descendantsList : List Xml → List Xml
  | [] => []
  | c :: cs => c.descendants ++ descendantsList cs

end

/-- Python `str.strip()`: drop whitespace from both ends.  Defined over the
character list so that it evaluates inside the kernel. -/
def strip (s : String) : String :=
  ⟨((s.data.dropWhile Char.isWhitespace).reverse.dropWhile Char.isWhitespace).reverse⟩

/-- Python dictionary assignment `d[k] = v`: update in place when the key
exists (keeping its position), append otherwise. -/
def dictInsert (d : List (String × String)) (k v : String) : List (String × String) :=
  if d.any (fun p => p.1 == k) then
    d.map fun p => if p.1 == k then (k, v) else p
  else d ++ [(k, v)]

/-- One step of the inner loop of `get_route` (data_analysis.py, lines
42-46): skip elements tagged `Flight`, and for an element whose text is
present store `tag -> text.strip()` in the segment dictionary. -/
def segInsert (d : Segment) (e : Xml) : Segment :=
  if e.tag == "Flight" then d
  else
    match e.text with
    | none => d
    | some t => dictInsert d e.tag (strip t)

/-- The inner loop of `get_route` (data_analysis.py, lines 42-46) as a fold
of `segInsert` over the subtree of one `Flight` element. -/
def buildSegment (flight : Xml) : Segment :=
  flight.descendants.foldl segInsert []

/-- The segment-building rule as claim C8 words it: collect descendant
*leaf* fields only (elements without children), excluding the
segment-container tag, mapping tag to trimmed text and *skipping* fields
whose text is empty or absent. -/
def buildSegmentClaim (flight : Xml) : Segment :=
  flight.descendants.foldl
    (fun d e =>
      if e.tag == "Flight" || !e.children.isEmpty then d
      else
        match e.text with
        | none => d
        | some t => if strip t == "" then d else dictInsert d e.tag (strip t))
    []

/-- The raw price dictionary built by `get_route` (lines 50-55):
`TicketPrice` is the text of the matching `ServiceCharges` node (possibly
absent), `Currency` the `currency` attribute of the `Pricing` node. -/
structure RawPrice where
  ticketPrice : Option String
  currency : String
deriving DecidableEq, Repr

/-- The raw route dictionary built by `get_route`: positional keys
`flight1`, `flight2`, ... become the `segments` list (1-based order is list
order); the `Price` key is `none` only when no `Flight` element was seen. -/
structure RawRoute where
  segments : List Segment
  price : Option RawPrice
deriving DecidableEq, Repr

/-- `flights.find('../../Pricing')`: the first `Pricing` child of the
itinerary node two levels above the `Flights` element.  The itinerary node
is passed explicitly, since the embedding has no parent pointers. -/
def findPricing (itin : Xml) : Option Xml :=
  (itin.children.filter (fun c => c.tag == "Pricing")).head?

/-- `flights.find('../../Pricing/ServiceCharges[@ChargeType="TotalAmount"]')`:
the first `ServiceCharges` child with `ChargeType="TotalAmount"` of a
`Pricing` child of the itinerary node, in document order. -/
def findServiceCharges (itin : Xml) : Option Xml :=
  ((itin.children.filter (fun c => c.tag == "Pricing")).flatMap
      (fun p =>
        p.children.filter fun c =>
          c.tag == "ServiceCharges" && c.attr "ChargeType" == some "TotalAmount")).head?

/-- The `route['Price']` assignment of `get_route` (lines 50-55), executed
once per loop iteration.  A missing `ServiceCharges` node or a missing
`Pricing` node raises `AttributeError` (attribute access on `None`); a
missing `currency` attribute raises `KeyError`.  The embedding returns the
error message. -/
def pricingLookup (itin : Xml) : Except String RawPrice :=
  match findServiceCharges itin with
  | none => .error "AttributeError: NoneType object has no attribute text"
  | some sc =>
    match findPricing itin with
    | none => .error "AttributeError: NoneType object has no attribute attrib"
    | some p =>
      match p.attr "currency" with
      | none => .error "KeyError: currency"
      | some cur => .ok ⟨sc.text, cur⟩

/-- The loop of `get_route` (lines 38-55) over the `Flight` elements: each
iteration appends the next positional segment and (re)assigns the `Price`
key, failing if the pricing lookup fails. -/
def getRouteLoop (itin : Xml) : List Xml → RawRoute → Except String RawRoute
  | [], r => .ok r
  | f :: fs, r =>
    match pricingLookup itin with
    | .error e => .error e
    | .ok p => getRouteLoop itin fs ⟨r.segments ++ [buildSegment f], some p⟩

/-- Embeds `get_route` (data_analysis.py, lines 25-57).  `flights` is the
`Flights` element of one itinerary; `itin` is its grandparent (the node
reached by `../../`), passed explicitly in place of lxml parent
navigation.  `flights.iter('Flight')` is the document-order list of
descendants tagged `Flight`. -/
def get_route (flights itin : Xml) : Except String RawRoute :=
  getRouteLoop itin (flights.descendants.filter fun e => e.tag == "Flight") ⟨[], none⟩

/-! ## Sample data used by witnesses and counterexamples -/

/-- A direct AAA to BBB flight with the given travel time and price. -/
def exF (t : Nat) (p : ℚ) : Flight :=
  ⟨[("Source", "AAA"), ("Destination", "BBB")], none, ⟨p, "USD"⟩, t⟩

/-- Five AAA to BBB flights: times ascending, prices arranged so that the
rank-sum minimum is the fourth-slowest flight. -/
def exFlights : List Flight :=
  [exF 10 5, exF 20 4, exF 30 3, exF 40 1, exF 50 2]

/-- A flight whose `flight2` key is present but holds an empty dictionary. -/
def emptySecondFlight : Flight :=
  ⟨[("Source", "A"), ("Destination", "B")], some [], ⟨1, "USD"⟩, 1⟩

/-- A direct JFK-LAX flight (spec section 8, concrete scenario). -/
def jfkLaxDirect : Flight :=
  ⟨[("Source", "JFK"), ("Destination", "LAX")], none, ⟨100, "USD"⟩, 300⟩

/-- A one-stop JFK-ORD-LAX flight (spec section 8, concrete scenario). -/
def jfkOrdLax : Flight :=
  ⟨[("Source", "JFK"), ("Destination", "ORD")],
    some [("Source", "ORD"), ("Destination", "LAX")], ⟨90, "USD"⟩, 420⟩

/-- A concrete `Flight` XML element with two text fields. -/
def flightElemW : Xml :=
  .elem "Flight" [] none
    [.elem "Source" [] (some " DXB ") [], .elem "Destination" [] (some "BKK") []]

/-- A concrete `Flights` element holding one `Flight`. -/
def flightsW : Xml :=
  .elem "Flights" [] none [flightElemW]

/-- A concrete `Pricing` node with a `TotalAmount` charge entry. -/
def pricingW : Xml :=
  .elem "Pricing" [("currency", "SGD")] none
    [.elem "ServiceCharges" [("ChargeType", "TotalAmount")] (some "546.80") []]

/-- A concrete itinerary node (the `../../` target) with pricing present. -/
def itinW : Xml :=
  .elem "Flights" [] none [.elem "OnwardPricedItinerary" [] none [flightsW], pricingW]

/-- The same itinerary node with the `Pricing` container absent. -/
def itinNoPricingW : Xml :=
  .elem "Flights" [] none [.elem "OnwardPricedItinerary" [] none [flightsW]]

/-- A `Flight` element with a whitespace-only text field (`Carrier`). -/
def cexFlightW : Xml :=
  .elem "Flight" [] none
    [.elem "Source" [] (some " DXB ") [], .elem "Carrier" [] (some "  ") []]

/-- A `Flights` element holding `cexFlightW`. -/
def cexFlightsW : Xml :=
  .elem "Flights" [] none [cexFlightW]

/-- An itinerary node for `cexFlightsW` with pricing present. -/
def cexItinW : Xml :=
  .elem "Flights" [] none [.elem "OnwardPricedItinerary" [] none [cexFlightsW], pricingW]

/-! ## Generic lemmas about stable insertion sort -/

theorem filter_orderedInsert_pos {α : Type} (r : α → α → Prop) [DecidableRel r]
    (p : α → Bool) (a : α) (hpa : p a = true) (h : ∀ b, p b = true → r a b) :
    ∀ l : List α, (l.orderedInsert r a).filter p = a :: l.filter p
  | [] => by simp [hpa]
  | b :: l => by
    by_cases hr : r a b
    · simp [List.orderedInsert, hr, hpa]
    · have hpb : p b = false := by
        cases hb : p b
        · rfl
        · exact absurd (h b hb) hr
      simp [List.orderedInsert, hr, hpb, filter_orderedInsert_pos r p a hpa h l]

theorem filter_orderedInsert_neg {α : Type} (r : α → α → Prop) [DecidableRel r]
    (p : α → Bool) (a : α) (hpa : p a = false) :
    ∀ l : List α, (l.orderedInsert r a).filter p = l.filter p
  | [] => by simp [hpa]
  | b :: l => by
    by_cases hr : r a b
    · simp [List.orderedInsert, hr, hpa]
    · cases hb : p b <;>
        simp [List.orderedInsert, hr, hb, filter_orderedInsert_neg r p a hpa l]

/-- Stability of insertion sort: filtering by any predicate that relates all
its members under `r` commutes with sorting; in particular the relative
order of elements with equal sort keys is preserved. -/
theorem filter_insertionSort {α : Type} (r : α → α → Prop) [DecidableRel r]
    (p : α → Bool) (H : ∀ a b, p a = true → p b = true → r a b) :
    ∀ l : List α, (l.insertionSort r).filter p = l.filter p
  | [] => rfl
  | a :: l => by
    rw [List.insertionSort]
    cases hpa : p a with
    | true =>
      rw [filter_orderedInsert_pos r p a hpa (fun b hb => H a b hpa hb),
        filter_insertionSort r p H l, List.filter_cons_of_pos hpa]
    | false =>
      rw [filter_orderedInsert_neg r p a hpa, filter_insertionSort r p H l,
        List.filter_cons_of_neg (by simp [hpa])]

/-- Sorting an already sorted list is the identity; hence re-sorting is
idempotent. -/
theorem insertionSort_idem {α : Type} (r : α → α → Prop) [DecidableRel r]
    (total : ∀ a b, r a b ∨ r b a) (trans : ∀ a b c, r a b → r b c → r a c)
    (l : List α) :
    (l.insertionSort r).insertionSort r = l.insertionSort r := by
  haveI : IsTotal α r := ⟨total⟩
  haveI : IsTrans α r := ⟨trans⟩
  exact (List.sorted_insertionSort r l).insertionSort_eq

/-- With pairwise-distinct keys, the stable descending sort is the exact
reverse of the stable ascending sort. -/
theorem insertionSort_desc_eq_reverse {α β : Type} [LinearOrder β] (k : α → β)
    (l : List α) (hnd : l.Pairwise fun a b => k a ≠ k b) :
    l.insertionSort (fun a b => k b ≤ k a) =
      (l.insertionSort (fun a b => k a ≤ k b)).reverse := by
  haveI : IsTotal α fun a b => k a ≤ k b := ⟨fun a b => le_total _ _⟩
  haveI : IsTrans α fun a b => k a ≤ k b := ⟨fun _ _ _ h1 h2 => le_trans h1 h2⟩
  haveI : IsTotal α fun a b => k b ≤ k a := ⟨fun a b => le_total _ _⟩
  haveI : IsTrans α fun a b => k b ≤ k a := ⟨fun _ _ _ h1 h2 => le_trans h2 h1⟩
  haveI : IsAntisymm α fun a b => k b < k a :=
    ⟨fun _ _ h1 h2 => absurd h2 (not_lt.mpr h1.le)⟩
  have pD := List.perm_insertionSort (fun a b : α => k b ≤ k a) l
  have pA := List.perm_insertionSort (fun a b : α => k a ≤ k b) l
  have perm :
      List.Perm (l.insertionSort fun a b => k b ≤ k a)
        (l.insertionSort fun a b => k a ≤ k b).reverse :=
    pD.trans (pA.symm.trans (List.reverse_perm _).symm)
  have hndD : (l.insertionSort fun a b => k b ≤ k a).Pairwise fun a b => k a ≠ k b :=
    (pD.pairwise_iff fun h => Ne.symm h).mpr hnd
  have hndR :
      ((l.insertionSort fun a b => k a ≤ k b).reverse).Pairwise fun a b => k a ≠ k b :=
    ((List.reverse_perm _).trans pA).pairwise_iff (fun h => Ne.symm h) |>.mpr hnd
  have sD : (l.insertionSort fun a b => k b ≤ k a).Pairwise fun a b => k b < k a :=
    ((List.sorted_insertionSort _ l).and hndD).imp fun h =>
      lt_of_le_of_ne h.1 h.2.symm
  have sR :
      ((l.insertionSort fun a b => k a ≤ k b).reverse).Pairwise fun a b => k b < k a := by
    have hA : (l.insertionSort fun a b => k a ≤ k b).Pairwise fun a b => k a ≤ k b :=
      List.sorted_insertionSort _ l
    have : ((l.insertionSort fun a b => k a ≤ k b).reverse).Pairwise fun a b => k b ≤ k a :=
      List.pairwise_reverse.mpr hA
    exact (this.and hndR).imp fun h => lt_of_le_of_ne h.1 h.2.symm
  exact List.eq_of_perm_of_sorted perm sD sR

/-! ## Counting lemmas for the route grouping property -/

theorem sum_map_ite_eq_count {α : Type} [DecidableEq α] (a : α) :
    ∀ d : List α, (d.map fun x => if x = a then 1 else 0).sum = d.count a
  | [] => rfl
  | b :: d => by
    rw [List.map_cons, List.sum_cons, sum_map_ite_eq_count a d, List.count_cons]
    by_cases hb : b = a
    · simp [hb, Nat.add_comm]
    · simp [hb, fun h => hb (beq_iff_eq.mp h)]

theorem sum_map_add_nat {α : Type} (f g : α → ℕ) :
    ∀ d : List α, (d.map fun x => f x + g x).sum = (d.map f).sum + (d.map g).sum
  | [] => rfl
  | b :: d => by
    simp only [List.map_cons, List.sum_cons, sum_map_add_nat f g d]
    omega

/-- Summing, over a duplicate-free cover `d` of `l`, the number of
occurrences in `l` of each element of `d` yields the length of `l`. -/
theorem sum_map_count_eq_length {α : Type} [DecidableEq α] (d : List α)
    (hd : d.Nodup) :
    ∀ l : List α, (∀ x ∈ l, x ∈ d) → (d.map fun x => l.count x).sum = l.length
  | [], _ => by simp
  | a :: t, h => by
    have step : (d.map fun x => (a :: t).count x) =
        d.map fun x => t.count x + if x = a then 1 else 0 := by
      refine List.map_congr_left fun x _ => ?_
      rw [List.count_cons]
      by_cases hxa : x = a
      · simp [hxa]
      · have hne : (a == x) = false := beq_eq_false_iff_ne.mpr fun h => hxa h.symm
        simp [hxa, hne]
    rw [step, sum_map_add_nat, sum_map_count_eq_length d hd t
      (fun x hx => h x (List.mem_cons_of_mem a hx)), sum_map_ite_eq_count,
      List.count_eq_one_of_mem hd (h a (List.mem_cons_self a t)), List.length_cons]

/-! ## Lemmas about the route-extraction loop -/

theorem getRouteLoop_ok (itin : Xml) (p : RawPrice)
    (hp : pricingLookup itin = .ok p) :
    ∀ (fs : List Xml) (acc : RawRoute),
      getRouteLoop itin fs acc =
        .ok ⟨acc.segments ++ fs.map buildSegment,
          if fs.isEmpty then acc.price else some p⟩
  | [], acc => by simp [getRouteLoop]
  | f :: fs, acc => by
    simp only [getRouteLoop, hp]
    rw [getRouteLoop_ok itin p hp fs]
    simp [List.append_assoc]

theorem getRouteLoop_error (itin : Xml) (e : String)
    (he : pricingLookup itin = .error e) (f : Xml) (fs : List Xml)
    (acc : RawRoute) : getRouteLoop itin (f :: fs) acc = .error e := by
  rw [getRouteLoop, he]

/-- If a `ServiceCharges` node is found under `../../Pricing`, the `Pricing`
container itself is found. -/
theorem findPricing_isSome_of_findServiceCharges {itin : Xml} {sc : Xml}
    (h : findServiceCharges itin = some sc) : ∃ p, findPricing itin = some p := by
  unfold findServiceCharges at h
  unfold findPricing
  cases hl : itin.children.filter (fun c => c.tag == "Pricing") with
  | nil => rw [hl] at h; simp at h
  | cons p ps => exact ⟨p, by simp⟩

theorem mem_dictInsert {d : List (String × String)} {k v : String}
    {kv : String × String} (h : kv ∈ dictInsert d k v) :
    kv ∈ d ∨ kv = (k, v) := by
  unfold dictInsert at h
  by_cases hc : d.any fun p => p.1 == k
  · rw [if_pos hc] at h
    rcases List.mem_map.mp h with ⟨q, hq, he⟩
    by_cases hk : q.1 == k
    · right; rw [if_pos hk] at he; exact he.symm
    · left; rw [if_neg hk] at he; exact he ▸ hq
  · rw [if_neg hc] at h
    rcases List.mem_append.mp h with h1 | h1
    · exact Or.inl h1
    · exact Or.inr (List.mem_singleton.mp h1)

/-- Every binding of a segment dictionary built by the fold traces back to a
descendant element: its tag is the key (never the container tag `Flight`)
and its stripped text is the value. -/
theorem mem_foldl_segInsert :
    ∀ (es : List Xml) (d : Segment) (kv : String × String),
      kv ∈ es.foldl segInsert d →
        kv ∈ d ∨ ∃ e ∈ es, e.tag = kv.1 ∧ e.tag ≠ "Flight" ∧
          ∃ t, e.text = some t ∧ kv.2 = strip t
  | [], _, _, h => Or.inl h
  | e :: es, d, kv, h => by
    rcases mem_foldl_segInsert es (segInsert d e) kv h with h1 | ⟨e', he', rest⟩
    · unfold segInsert at h1
      by_cases hf : e.tag == "Flight"
      · rw [if_pos hf] at h1; exact Or.inl h1
      · rw [if_neg hf] at h1
        cases ht : e.text with
        | none => rw [ht] at h1; exact Or.inl h1
        | some t =>
          rw [ht] at h1
          rcases mem_dictInsert h1 with h2 | h2
          · exact Or.inl h2
          · refine Or.inr ⟨e, List.mem_cons_self e es, ?_, ?_, t, ht, ?_⟩
            · rw [h2]
            · exact fun hc => hf (beq_iff_eq.mpr hc)
            · rw [h2]
    · exact Or.inr ⟨e', List.mem_cons_of_mem e he', rest⟩

/-! ## Claim theorems -/

/-- C4: for every list of routes, `get_flights_sorted_price` (keyed by the
parsed ticket price) and `get_flights_sorted_time` (keyed by
`TotalTravelTime`) return a permutation of the input, nondecreasing in the
key for `reverse=false`; both are stable (filtering by any key value
commutes with sorting) and idempotent under re-sorting; with pairwise
distinct keys the `reverse=true` output is the exact reverse of the
`reverse=false` output, and in general it is at least a permutation of that
reverse. -/
theorem C4_sorts_stable_idempotent_reverse (l : List Flight) :
    ((get_flights_sorted_price l).Perm l ∧
      (get_flights_sorted_price l).Pairwise
        (fun a b => a.price.ticketPrice ≤ b.price.ticketPrice)) ∧
    ((get_flights_sorted_time l).Perm l ∧
      (get_flights_sorted_time l).Pairwise
        (fun a b => a.totalTravelTime ≤ b.totalTravelTime)) ∧
    (∀ (rev : Bool) (v : ℚ),
      (get_flights_sorted_price l rev).filter
          (fun f => decide (f.price.ticketPrice = v)) =
        l.filter fun f => decide (f.price.ticketPrice = v)) ∧
    (∀ (rev : Bool) (v : Nat),
      (get_flights_sorted_time l rev).filter
          (fun f => decide (f.totalTravelTime = v)) =
        l.filter fun f => decide (f.totalTravelTime = v)) ∧
    (∀ rev : Bool,
      get_flights_sorted_price (get_flights_sorted_price l rev) rev =
        get_flights_sorted_price l rev) ∧
    (∀ rev : Bool,
      get_flights_sorted_time (get_flights_sorted_time l rev) rev =
        get_flights_sorted_time l rev) ∧
    (l.Pairwise (fun a b => a.price.ticketPrice ≠ b.price.ticketPrice) →
      get_flights_sorted_price l true = (get_flights_sorted_price l false).reverse) ∧
    (l.Pairwise (fun a b => a.totalTravelTime ≠ b.totalTravelTime) →
      get_flights_sorted_time l true = (get_flights_sorted_time l false).reverse) ∧
    (get_flights_sorted_price l true).Perm
      ((get_flights_sorted_price l false).reverse) ∧
    (get_flights_sorted_time l true).Perm
      ((get_flights_sorted_time l false).reverse) := by
  refine ⟨⟨?_, ?_⟩, ⟨?_, ?_⟩, ?_, ?_, ?_, ?_, ?_, ?_, ?_, ?_⟩
  · exact List.perm_insertionSort _ l
  · haveI : IsTotal Flight fun a b : Flight =>
        a.price.ticketPrice ≤ b.price.ticketPrice := ⟨fun a b => le_total _ _⟩
    haveI : IsTrans Flight fun a b : Flight =>
        a.price.ticketPrice ≤ b.price.ticketPrice := ⟨fun _ _ _ h1 h2 => le_trans h1 h2⟩
    exact List.sorted_insertionSort _ l
  · exact List.perm_insertionSort _ l
  · haveI : IsTotal Flight fun a b : Flight =>
        a.totalTravelTime ≤ b.totalTravelTime := ⟨fun a b => le_total _ _⟩
    haveI : IsTrans Flight fun a b : Flight =>
        a.totalTravelTime ≤ b.totalTravelTime := ⟨fun _ _ _ h1 h2 => le_trans h1 h2⟩
    exact List.sorted_insertionSort _ l
  · intro rev v
    cases rev <;> simp only [get_flights_sorted_price, Bool.false_eq_true,
      if_false, if_true] <;>
      refine filter_insertionSort _ _ (fun a b ha hb => ?_) l <;>
      simp only [decide_eq_true_eq] at ha hb <;> rw [ha, hb]
  · intro rev v
    cases rev <;> simp only [get_flights_sorted_time, Bool.false_eq_true,
      if_false, if_true] <;>
      refine filter_insertionSort _ _ (fun a b ha hb => ?_) l <;>
      simp only [decide_eq_true_eq] at ha hb <;> rw [ha, hb]
  · intro rev
    cases rev <;> simp only [get_flights_sorted_price, Bool.false_eq_true,
      if_false, if_true]
    all_goals
      refine insertionSort_idem _ ?_ ?_ l
      · exact fun a b => le_total _ _
      · first
        | exact fun _ _ _ h1 h2 => le_trans h1 h2
        | exact fun _ _ _ h1 h2 => le_trans h2 h1
  · intro rev
    cases rev <;> simp only [get_flights_sorted_time, Bool.false_eq_true,
      if_false, if_true]
    all_goals
      refine insertionSort_idem _ ?_ ?_ l
      · exact fun a b => le_total _ _
      · first
        | exact fun _ _ _ h1 h2 => le_trans h1 h2
        | exact fun _ _ _ h1 h2 => le_trans h2 h1
  · intro hnd
    exact insertionSort_desc_eq_reverse (fun f : Flight => f.price.ticketPrice) l hnd
  · intro hnd
    exact insertionSort_desc_eq_reverse (fun f : Flight => f.totalTravelTime) l hnd
  · exact (List.perm_insertionSort _ l).trans
      ((List.perm_insertionSort _ l).symm.trans (List.reverse_perm _).symm)
  · exact (List.perm_insertionSort _ l).trans
      ((List.perm_insertionSort _ l).symm.trans (List.reverse_perm _).symm)

/-- Witness for C4: the theorem applied to a concrete two-flight list, with
the distinct-keys hypotheses discharged by evaluation. -/
theorem C4_sorts_witness :
    get_flights_sorted_price [exF 10 5, exF 20 4] true =
      (get_flights_sorted_price [exF 10 5, exF 20 4] false).reverse ∧
    get_flights_sorted_time [exF 10 5, exF 20 4] true =
      (get_flights_sorted_time [exF 10 5, exF 20 4] false).reverse :=
  ⟨(C4_sorts_stable_idempotent_reverse [exF 10 5, exF 20 4]).2.2.2.2.2.2.1
      (by decide),
    (C4_sorts_stable_idempotent_reverse [exF 10 5, exF 20 4]).2.2.2.2.2.2.2.1
      (by decide)⟩

/-- C9: the direction filter returns an order-preserving subsequence of the
full flight list. -/
theorem C9_filtered_is_sublist (s d : String) (flights : List Flight) :
    (get_flights_filtered_direction s d flights).Sublist flights :=
  List.filter_sublist flights

/-- C10: the deduplicated route list contains no duplicates: any two
summaries at distinct positions differ in Source, Transfer (including its
presence) or Destination. -/
theorem C10_routes_pairwise_distinct (flights : List Flight) :
    (get_all_routes flights).Pairwise fun r1 r2 =>
      r1.source ≠ r2.source ∨ r1.transfer ≠ r2.transfer ∨
        r1.destination ≠ r2.destination := by
  refine (List.nodup_dedup (all_routes_list flights)).imp fun h => ?_
  by_contra hc
  push_neg at hc
  apply h
  obtain ⟨h1, h2, h3⟩ := hc
  cases ‹RouteSummary›
  all_goals cases ‹RouteSummary›
  simp_all

/-- C5: `get_all_routes` derives exactly one summary per flight, so grouping
the per-flight summaries and summing the group counts gives the total flight
count; deduplication is by full equality, so the direct JFK-LAX summary and
the one-stop JFK-ORD-LAX summary are distinct entries, each appearing once. -/
theorem C5_routes_grouping_and_distinct (flights : List Flight) :
    (all_routes_list flights).length = flights.length ∧
    ((get_all_routes flights).map fun r => (all_routes_list flights).count r).sum =
      flights.length ∧
    (get_all_routes [jfkLaxDirect, jfkOrdLax]).count (flightToRoute jfkLaxDirect) = 1 ∧
    (get_all_routes [jfkLaxDirect, jfkOrdLax]).count (flightToRoute jfkOrdLax) = 1 ∧
    flightToRoute jfkLaxDirect ≠ flightToRoute jfkOrdLax := by
  refine ⟨List.length_map flights flightToRoute, ?_, by decide, by decide, by decide⟩
  rw [sum_map_count_eq_length (get_all_routes flights)
    (List.nodup_dedup (all_routes_list flights)) (all_routes_list flights)
    (fun x hx => List.mem_dedup.mpr hx)]
  exact List.length_map flights flightToRoute

/-- C3 (amended): a flight appears in the direction-filtered result exactly
as often as it appears in the full list when its first segment's Source is
`s` and the Destination of its effective last segment — the second segment
if present *and non-empty* (Python truthiness), else the first — is `d`, and
never otherwise. -/
theorem C3_filter_sound_complete (s d : String) (flights : List Flight)
    (f : Flight) :
    (f ∈ get_flights_filtered_direction s d flights ↔
      f ∈ flights ∧ f.flight1.lookup "Source" = some s ∧
        (match f.flight2 with
          | some f2 => if f2.isEmpty then f.flight1 else f2
          | none => f.flight1).lookup "Destination" = some d) ∧
    (get_flights_filtered_direction s d flights).count f =
      (if f.flight1.lookup "Source" = some s ∧
          (match f.flight2 with
            | some f2 => if f2.isEmpty then f.flight1 else f2
            | none => f.flight1).lookup "Destination" = some d then
        flights.count f
      else 0) := by
  have hmatch : directionMatch s d f = true ↔
      (f.flight1.lookup "Source" = some s ∧
        (match f.flight2 with
          | some f2 => if f2.isEmpty then f.flight1 else f2
          | none => f.flight1).lookup "Destination" = some d) := by
    unfold directionMatch
    rw [Bool.and_eq_true, beq_iff_eq, beq_iff_eq]
  constructor
  · rw [get_flights_filtered_direction, List.mem_filter, hmatch, and_congr_right_iff]
    exact fun _ => Iff.rfl
  · by_cases hp : directionMatch s d f = true
    · rw [if_pos (hmatch.mp hp), get_flights_filtered_direction,
        List.count_filter hp]
    · rw [if_neg fun hc => hp (hmatch.mpr hc), List.count_eq_zero]
      rw [get_flights_filtered_direction, List.mem_filter]
      exact fun hc => hp hc.2

/-- Counterexample to C3 as stated: a flight whose `flight2` key is present
but empty. The code falls back to `flight1` (Python truthiness) and keeps
the flight, while the claim's criterion (second segment whenever present)
rejects it, since an empty second segment has no Destination. -/
theorem C3_counterexample :
    emptySecondFlight ∈ get_flights_filtered_direction "A" "B" [emptySecondFlight] ∧
    ¬ directionMatchClaim "A" "B" emptySecondFlight := by
  decide

/-- C1 (amended): `get_optimal_route` returns at most `count` routes, every
returned route belongs to the direction-filtered set, and an empty filtered
set yields an empty result.  (The median comparison of the original claim
fails; see the counterexample.) -/
theorem C1_optimal_route_bounds (s d : String) (flights : List Flight)
    (count : Nat) :
    (get_optimal_route s d flights count).length ≤ count ∧
    (∀ f ∈ get_optimal_route s d flights count,
      f ∈ get_flights_filtered_direction s d flights) ∧
    (get_flights_filtered_direction s d flights = [] →
      get_optimal_route s d flights count = []) := by
  refine ⟨?_, ?_, ?_⟩
  · simp only [get_optimal_route]
    rw [List.length_map, List.length_take]
    exact min_le_left _ _
  · intro f hf
    simp only [get_optimal_route] at hf
    rcases List.mem_map.mp hf with ⟨pair, hpair, hfst⟩
    have h1 := List.mem_of_mem_take hpair
    have h2 := (List.mem_insertionSort _).mp h1
    simp only [get_flight_weights] at h2
    rcases List.mem_map.mp h2 with ⟨g, hg, hgw⟩
    rw [← hfst, ← hgw]
    exact hg
  · intro h
    simp [get_optimal_route, h, get_flight_weights, get_flights_sorted_time,
      get_flights_sorted_price]

/-- Witness for C1: the amended theorem applied at concrete inputs; on
`exFlights` with `count = 1` the returned flight is a member of the filtered
set, and an unmatched source yields the empty result. -/
theorem C1_optimal_route_bounds_witness :
    (get_optimal_route "AAA" "BBB" exFlights 1).length ≤ 1 ∧
    exF 40 1 ∈ get_flights_filtered_direction "AAA" "BBB" exFlights ∧
    get_optimal_route "ZZZ" "BBB" exFlights 1 = [] :=
  ⟨(C1_optimal_route_bounds "AAA" "BBB" exFlights 1).1,
    (C1_optimal_route_bounds "AAA" "BBB" exFlights 1).2.1 (exF 40 1) (by decide),
    (C1_optimal_route_bounds "ZZZ" "BBB" exFlights 1).2.2 (by decide)⟩

/-- Counterexample to C1's median clause: on `exFlights` (all AAA to BBB,
times 10..50, prices arranged so the cheap-but-slow fourth flight has the
unique least rank-sum), `get_optimal_route` with `count = 1` selects the
flight with time 40, whose median travel time 40 exceeds the filtered set's
median 30. -/
theorem C1_median_counterexample :
    ¬ get_median_time (get_optimal_route "AAA" "BBB" exFlights 1) ≤
        get_median_time (get_flights_filtered_direction "AAA" "BBB" exFlights) := by
  decide

/-- C2: `get_optimal_route` equals the spec's description — the filtered
routes stably sorted by the rank-sum weight (0-based index in the
time-sorted list plus 0-based index in the price-sorted list), ascending,
truncated to `count`. -/
theorem C2_optimal_route_is_rank_sum_sort (s d : String) (flights : List Flight)
    (count : Nat) :
    get_optimal_route s d flights count = optimalRouteSpec s d flights count := by
  simp only [get_optimal_route, optimalRouteSpec, get_flight_weights]
  have h := List.map_insertionSort
    (fun a b : Flight =>
      (get_flights_sorted_time (get_flights_filtered_direction s d flights)).indexOf a +
          (get_flights_sorted_price (get_flights_filtered_direction s d flights)).indexOf a ≤
        (get_flights_sorted_time (get_flights_filtered_direction s d flights)).indexOf b +
          (get_flights_sorted_price (get_flights_filtered_direction s d flights)).indexOf b)
    (fun a b : Flight × Nat => a.2 ≤ b.2)
    (fun f : Flight =>
      (f, (get_flights_sorted_time (get_flights_filtered_direction s d flights)).indexOf f +
        (get_flights_sorted_price (get_flights_filtered_direction s d flights)).indexOf f))
    (get_flights_filtered_direction s d flights)
    (fun _ _ _ _ => Iff.rfl)
  rw [← h, ← List.map_take, List.map_map]
  exact List.map_id _

/-- C6: with at least one `Flight` element in the itinerary, a missing
`TotalAmount` `ServiceCharges` entry, a missing `Pricing` container, or a
`Pricing` container without a `currency` attribute makes `get_route` raise
(return an error) rather than default the price. -/
theorem C6_missing_pricing_raises (flights itin : Xml)
    (h1 : (flights.descendants.filter fun e => e.tag == "Flight") ≠ [])
    (h2 : findServiceCharges itin = none ∨ findPricing itin = none ∨
      ∃ p, findPricing itin = some p ∧ p.attr "currency" = none) :
    ∃ msg, get_route flights itin = Except.error msg := by
  have herr : ∃ msg, pricingLookup itin = Except.error msg := by
    rcases h2 with h | h | ⟨p, hp, hc⟩
    · exact ⟨"AttributeError: NoneType object has no attribute text",
        by simp only [pricingLookup, h]⟩
    · cases hsc : findServiceCharges itin with
      | none =>
        exact ⟨"AttributeError: NoneType object has no attribute text",
          by simp only [pricingLookup, hsc]⟩
      | some sc =>
        rcases findPricing_isSome_of_findServiceCharges hsc with ⟨p, hp⟩
        rw [h] at hp
        exact absurd hp (by simp)
    · cases hsc : findServiceCharges itin with
      | none =>
        exact ⟨"AttributeError: NoneType object has no attribute text",
          by simp only [pricingLookup, hsc]⟩
      | some sc =>
        exact ⟨"KeyError: currency", by simp only [pricingLookup, hsc, hp, hc]⟩
  rcases herr with ⟨msg, hmsg⟩
  rcases List.exists_cons_of_ne_nil h1 with ⟨f, fs, hfs⟩
  unfold get_route
  rw [hfs]
  exact ⟨msg, getRouteLoop_error itin msg hmsg f fs _⟩

/-- Witness for C6: on a concrete itinerary with one segment and no
`Pricing` container, `get_route` returns an error. -/
theorem C6_missing_pricing_witness :
    ∃ msg, get_route flightsW itinNoPricingW = Except.error msg :=
  C6_missing_pricing_raises flightsW itinNoPricingW
    (by
      rw [show (flightsW.descendants.filter fun e => e.tag == "Flight") =
        [flightElemW] from rfl]
      exact List.cons_ne_nil _ _)
    (Or.inl rfl)

/-- C7: under the input precondition — one or two `Flight` elements and a
pricing lookup that succeeds — `get_route` returns a route with at least one
positionally keyed segment and exactly one price dictionary, which carries
both the `TicketPrice` and the `Currency` fields. -/
theorem C7_route_has_segment_and_price (flights itin : Xml) (p : RawPrice)
    (h1 : 1 ≤ (flights.descendants.filter fun e => e.tag == "Flight").length)
    (_h2 : (flights.descendants.filter fun e => e.tag == "Flight").length ≤ 2)
    (hp : pricingLookup itin = Except.ok p) :
    ∃ r, get_route flights itin = Except.ok r ∧ r.segments ≠ [] ∧
      r.price = some p := by
  have hne : (flights.descendants.filter fun e => e.tag == "Flight") ≠ [] := by
    intro hc
    rw [hc] at h1
    exact absurd h1 (by simp)
  refine ⟨⟨(flights.descendants.filter fun e => e.tag == "Flight").map buildSegment,
    some p⟩, ?_, ?_, rfl⟩
  · unfold get_route
    rw [getRouteLoop_ok itin p hp]
    have hie : (flights.descendants.filter fun e => e.tag == "Flight").isEmpty = false := by
      cases hfs : flights.descendants.filter fun e => e.tag == "Flight" with
      | nil => exact absurd hfs hne
      | cons f fs => rfl
    rw [hie]
    simp
  · intro hc
    exact hne (List.map_eq_nil_iff.mp hc)

/-- Witness for C7: the theorem applied to a concrete one-segment itinerary
with a well-formed pricing block. -/
theorem C7_route_witness :
    ∃ r, get_route flightsW itinW = Except.ok r ∧ r.segments ≠ [] ∧
      r.price = some ⟨some "546.80", "SGD"⟩ :=
  C7_route_has_segment_and_price flightsW itinW ⟨some "546.80", "SGD"⟩
    (by decide) (by decide) rfl

/-- C8 (amended): the route's segments are, 1-based in document order, one
`buildSegment` per `Flight` element, and every binding of a built segment
maps the tag of some descendant element (never the container tag `Flight`,
but not necessarily a leaf) to its whitespace-stripped text; only fields
with absent text are skipped (whitespace-only text yields an empty-string
value; see the counterexample for the original claim). -/
theorem C8_segments_positional_and_sound (flights itin : Xml) (r : RawRoute)
    (h : get_route flights itin = Except.ok r) :
    r.segments =
      (flights.descendants.filter fun e => e.tag == "Flight").map buildSegment ∧
    ∀ fl ∈ flights.descendants.filter fun e => e.tag == "Flight",
      ∀ kv ∈ buildSegment fl,
        ∃ e ∈ fl.descendants, e.tag = kv.1 ∧ e.tag ≠ "Flight" ∧
          ∃ t, e.text = some t ∧ kv.2 = strip t := by
  constructor
  · unfold get_route at h
    cases hfs : flights.descendants.filter fun e => e.tag == "Flight" with
    | nil =>
      rw [hfs] at h
      simp only [getRouteLoop] at h
      cases h
      rfl
    | cons f fs =>
      rw [hfs] at h
      cases hpl : pricingLookup itin with
      | error e => rw [getRouteLoop_error itin e hpl] at h; cases h
      | ok p =>
        rw [getRouteLoop_ok itin p hpl] at h
        cases h
        rfl
  · intro fl _ kv hkv
    unfold buildSegment at hkv
    rcases mem_foldl_segInsert fl.descendants [] kv hkv with h0 | h1
    · exact absurd h0 (List.not_mem_nil kv)
    · exact h1

/-- Witness for C8: the amended theorem applied to the concrete one-segment
itinerary; the `Source -> DXB` binding traces back to the `Source` element
with text `" DXB "`. -/
theorem C8_segments_witness :
    (⟨[buildSegment flightElemW], some ⟨some "546.80", "SGD"⟩⟩ : RawRoute).segments =
      (flightsW.descendants.filter fun e => e.tag == "Flight").map buildSegment ∧
    ∃ e ∈ flightElemW.descendants, e.tag = "Source" ∧ e.tag ≠ "Flight" ∧
      ∃ t, e.text = some t ∧ "DXB" = strip t :=
  ⟨(C8_segments_positional_and_sound flightsW itinW
      ⟨[buildSegment flightElemW], some ⟨some "546.80", "SGD"⟩⟩ rfl).1,
    (C8_segments_positional_and_sound flightsW itinW
        ⟨[buildSegment flightElemW], some ⟨some "546.80", "SGD"⟩⟩ rfl).2
      flightElemW
      (by
        rw [show (flightsW.descendants.filter fun e => e.tag == "Flight") =
          [flightElemW] from rfl]
        exact List.mem_singleton.mpr rfl)
      ("Source", "DXB")
      (by
        rw [show buildSegment flightElemW =
          [("Source", "DXB"), ("Destination", "BKK")] from rfl]
        exact List.mem_cons_self _ _)⟩

/-- Counterexample to C8 as stated: an element with whitespace-only text is
not skipped — the code stores it with an empty-string value — so the built
segment differs from the claim's leaf-and-nonempty rule. -/
theorem C8_counterexample :
    get_route cexFlightsW cexItinW =
      Except.ok ⟨[buildSegment cexFlightW], some ⟨some "546.80", "SGD"⟩⟩ ∧
    buildSegment cexFlightW = [("Source", "DXB"), ("Carrier", "")] ∧
    buildSegmentClaim cexFlightW = [("Source", "DXB")] ∧
    buildSegment cexFlightW ≠ buildSegmentClaim cexFlightW :=
  ⟨rfl, rfl, rfl, by decide⟩
